import Mathlib

/-!
Shallow embedding of the birdman game's simulation core: the per-tick
`Game.Update` state machine, the run re-initialization `Game.initialize`,
and the constants they use, translated from the Go source.

Modelling conventions:
* Go `int` positions, velocities and counters become `ℤ` (the world X is
  unbounded; no value in the simulation approaches 64-bit overflow).
* Go division truncates toward zero, so the flap-impulse division is
  `Int.tdiv` (not the Euclidean `/` of Mathlib's `ℤ`).
* Go `%` also truncates, but the source only compares `x % 200` and
  `damagedTicks % MaxTPS` with `0`, and `t % m == 0` agrees between the
  truncated and the Euclidean convention, so plain `%` (`Int.emod`) is used.
* `rand.Int()` returns an arbitrary non-negative int; each tick takes the
  value the PRNG would return as an explicit `ℕ` argument.
* The collision test squares integer coordinate differences via
  `math.Pow` on `float64`; for the integer inputs involved the comparison
  with `50^2` is exact, so it is modelled over `ℤ`.
* Sound playback and telemetry (`logging.LogAsync`) become an explicit
  list of effect requests returned next to the new state.
-/

namespace BirdmanGame

def screenWidth : ℤ := 640

def screenHeight : ℤ := 480

def birdmanHeight : ℤ := 100

def birdmanWidth : ℤ := 100

def birdHeight : ℤ := 100

def birdWidth : ℤ := 100

def birdmanAndBirdCollisionRadius : ℤ := 50

def initialBirdmanPosY : ℤ := screenHeight / 3

/-- `ebiten.MaxTPS()`: the game never changes the tick rate, so this is
ebiten's default of 60 ticks per second ("one second of ticks"). -/
def maxTPS : ℤ := 60

inductive BirdmanState where
  | running
  | flying
  | damaged
deriving DecidableEq

inductive Mode where
  | title
  | game
  | gameOver
deriving DecidableEq

structure Birdman where
  state : BirdmanState
  x : ℤ
  y : ℤ
  vy : ℤ
  damagedCount : ℤ
  damagedTicks : ℤ
deriving DecidableEq

structure Bird where
  x : ℤ
  y : ℤ
deriving DecidableEq

inductive SoundKind where
  | flying
  | damage
  | gameOver
deriving DecidableEq

/-- Side-effect requests emitted by one tick: sound playback and the
telemetry events (`start_game`, `game_over` with the player X and damage
count, and the re-initialization event with its process-wide counter). -/
inductive Effect where
  | playSound (k : SoundKind)
  | logStartGame
  | logGameOver (x damagedCount : ℤ)
  | logInitRun (count : ℤ)
deriving DecidableEq

structure Game where
  initCount : ℤ
  mode : Mode
  birdman : Birdman
  birds : List Bird
  cameraX : ℤ
  cameraY : ℤ
deriving DecidableEq

/-- Flap impulse of a tap: the band base (-20, -15, -10, -7 or -5 by the
pre-movement world X) divided by `damagedCount + 1` with Go's
truncated integer division (`ay /= birdman.damagedCount + 1`). -/
def flapAccel (x damagedCount : ℤ) : ℤ :=
  let ay : ℤ :=
    if x < 1000 then -20
    else if x < 2000 then -15
    else if x < 3000 then -10
    else if x < 4000 then -7
    else -5
  Int.tdiv ay (damagedCount + 1)

/-- Gravity: `vy += 1`, then clamp to at most 5. -/
def applyGravity (vy : ℤ) : ℤ :=
  if vy + 1 > 5 then 5 else vy + 1

/-- Bird spawn: when the pre-movement world X is a multiple of 200, append
a bird one screen width ahead, with Y = `50 + rand.Int()%(screenHeight-100)`. -/
def spawnBirds (x : ℤ) (birds : List Bird) (r : ℕ) : List Bird :=
  if x % 200 = 0 then
    birds ++ [{ x := x + screenWidth, y := 50 + (r : ℤ) % (screenHeight - 100) }]
  else birds

/-- Bird move-and-retire loop of the Flying branch: every bird's X
decreases by 1, and only birds with `x + birdWidth > cameraX` (against the
already-advanced camera) are kept, in order. -/
def moveFilterBirds (birds : List Bird) (cameraX : ℤ) : List Bird :=
  (birds.map fun b => { b with x := b.x - 1 }).filter fun b =>
    decide (b.x + birdWidth > cameraX)

/-- Circular collision test between the (post-move) player position and a
bird: squared center distance strictly below `50^2`. -/
def collides (x y : ℤ) (b : Bird) : Bool :=
  decide ((x - b.x) ^ 2 + (y - b.y) ^ 2 < birdmanAndBirdCollisionRadius ^ 2)

/-- The `StateFlying` branch of `Game.Update`: camera advance, bird spawn,
bird move/retire, tap impulse, gravity, position integration, ceiling
check, collision scan (first hit only), floor check. -/
def flyingStep (g : Game) (tap : Bool) (r : ℕ) : Game × List Effect :=
  let bm := g.birdman
  let cameraX1 := g.cameraX + 1
  let birds1 := spawnBirds bm.x g.birds r
  let birds2 := moveFilterBirds birds1 cameraX1
  let vy1 := applyGravity (bm.vy + if tap then flapAccel bm.x bm.damagedCount else 0)
  let tapEffects : List Effect := if tap then [Effect.playSound SoundKind.flying] else []
  let x1 := bm.x + 1
  let y1 := bm.y + vy1
  let ceilingHit := y1 < 0
  let dc1 := if ceilingHit then bm.damagedCount + 1 else bm.damagedCount
  let st1 := if ceilingHit then BirdmanState.damaged else BirdmanState.flying
  let ceilEffects : List Effect :=
    if ceilingHit then [Effect.playSound SoundKind.damage] else []
  let collisionHit := birds2.any (collides x1 y1)
  let dc2 := if collisionHit then dc1 + 1 else dc1
  let st2 := if collisionHit then BirdmanState.damaged else st1
  let collEffects : List Effect :=
    if collisionHit then [Effect.playSound SoundKind.damage] else []
  let floorHit := y1 > screenHeight
  let mode1 := if floorHit then Mode.gameOver else g.mode
  let floorEffects : List Effect :=
    if floorHit then [Effect.logGameOver x1 dc2, Effect.playSound SoundKind.gameOver]
    else []
  ({ g with
      mode := mode1
      cameraX := cameraX1
      birds := birds2
      birdman := { bm with state := st2, x := x1, y := y1, vy := vy1, damagedCount := dc2 } },
   tapEffects ++ ceilEffects ++ collEffects ++ floorEffects)

/-- The `StateDamaged` branch of `Game.Update`: birds drift (no retire),
`damagedTicks` increments, velocity forced to 0, Y falls by 1, floor
check, and on `damagedTicks % MaxTPS == 0` return to Flying. -/
def damagedStep (g : Game) : Game × List Effect :=
  let bm := g.birdman
  let birds1 := g.birds.map fun b => { b with x := b.x - 1 }
  let dt1 := bm.damagedTicks + 1
  let y1 := bm.y + 1
  let floorHit := y1 > screenHeight
  let mode1 := if floorHit then Mode.gameOver else g.mode
  let floorEffects : List Effect :=
    if floorHit then [Effect.logGameOver bm.x bm.damagedCount, Effect.playSound SoundKind.gameOver]
    else []
  let dt2 := if dt1 % maxTPS = 0 then 0 else dt1
  let st2 := if dt1 % maxTPS = 0 then BirdmanState.flying else BirdmanState.damaged
  ({ g with
      mode := mode1
      birds := birds1
      birdman := { bm with state := st2, y := y1, vy := 0, damagedTicks := dt2 } },
   floorEffects)

/-- The `StateRunning` branch of `Game.Update`: X advances by 1; once
`x >= 0`, switch to Flying. -/
def runningStep (g : Game) : Game × List Effect :=
  let bm := g.birdman
  let x1 := bm.x + 1
  let st1 := if x1 ≥ 0 then BirdmanState.flying else BirdmanState.running
  ({ g with birdman := { bm with x := x1, state := st1 } }, [])

/-- The fresh player of `Game.initialize`. -/
def initialBirdman : Birdman :=
  { state := BirdmanState.running
    x := -60
    y := initialBirdmanPosY
    vy := 0
    damagedCount := 0
    damagedTicks := 0 }

/-- `Game.initialize`: bump the process-wide counter, emit its telemetry
event, and reset mode, camera, player and birds to run-start values. -/
def initGame (g : Game) : Game × List Effect :=
  ({ g with
      initCount := g.initCount + 1
      mode := Mode.title
      cameraX := -100
      cameraY := 0
      birdman := initialBirdman
      birds := [] },
   [Effect.logInitRun (g.initCount + 1)])

/-- One tick of `Game.Update`, with the tick's discrete input (`tap`) and
the value the process PRNG would return (`r`). -/
def update (g : Game) (tap : Bool) (r : ℕ) : Game × List Effect :=
  match g.mode with
  | Mode.title =>
    if tap then ({ g with mode := Mode.game }, [Effect.logStartGame]) else (g, [])
  | Mode.game =>
    match g.birdman.state with
    | BirdmanState.running => runningStep g
    | BirdmanState.flying => flyingStep g tap r
    | BirdmanState.damaged => damagedStep g
  | Mode.gameOver =>
    if tap then initGame g else (g, [])

/-- Iterated ticks, with per-tick tap and PRNG inputs (effects dropped). -/
def updateSeq (taps : ℕ → Bool) (rs : ℕ → ℕ) : ℕ → Game → Game
  | 0, g => g
  | n + 1, g => (update (updateSeq taps rs n g) (taps n) (rs n)).1

/-- A representative mid-run Flying state, used to instantiate theorems. -/
def gFly : Game :=
  { initCount := 0
    mode := Mode.game
    birdman := { state := BirdmanState.flying, x := 0, y := 160, vy := 0,
                 damagedCount := 0, damagedTicks := 0 }
    birds := []
    cameraX := -100
    cameraY := 0 }

/-- A representative Damaged-entry state. -/
def gDam : Game :=
  { gFly with birdman := { gFly.birdman with state := BirdmanState.damaged } }

/-- A Flying state whose damage count already exceeds the band base. -/
def gWeak : Game :=
  { gFly with birdman := { gFly.birdman with damagedCount := 20 } }

/-- A Damaged state holding a bird that has fully passed the camera. -/
def gDamStale : Game :=
  { gDam with cameraX := 0, birds := [{ x := -300, y := 100 }] }

/-- A Damaged state one pixel above the floor. -/
def gFall : Game :=
  { gDam with birdman := { gDam.birdman with y := 480 } }

/-- The pre-damage impulse magnitude by distance band. -/
def bandBase (x : ℤ) : ℕ :=
  if x < 1000 then 20
  else if x < 2000 then 15
  else if x < 3000 then 10
  else if x < 4000 then 7
  else 5

theorem applyGravity_le_five (vy : ℤ) : applyGravity vy ≤ 5 := by
  unfold applyGravity
  split <;> omega

/-- C5: on every tick with mode = Playing and sub-state = Flying, the
vertical velocity after gravity application is at most 5, whatever it was
before (so the downward speed never exceeds the cap, however long the
player has been falling). -/
theorem vertical_velocity_capped (g : Game) (tap : Bool) (r : ℕ)
    (hm : g.mode = Mode.game) (hs : g.birdman.state = BirdmanState.flying) :
    (update g tap r).1.birdman.vy ≤ 5 := by
  simp only [update, hm, hs, flyingStep]
  exact applyGravity_le_five _

theorem vertical_velocity_capped_witness :
    (update gFly false 0).1.birdman.vy ≤ 5 :=
  vertical_velocity_capped gFly false 0 rfl rfl

/-- C3 (amended): on a Playing tick, `cameraX` increases by exactly 1 when
the player sub-state is Flying, and is unchanged in the Running and
Damaged sub-states (the Damaged branch of the source does not advance the
camera). -/
theorem camera_advances_only_while_flying (g : Game) (tap : Bool) (r : ℕ)
    (hm : g.mode = Mode.game) :
    (g.birdman.state = BirdmanState.flying →
      (update g tap r).1.cameraX = g.cameraX + 1) ∧
    (g.birdman.state ≠ BirdmanState.flying →
      (update g tap r).1.cameraX = g.cameraX) := by
  cases hs : g.birdman.state <;>
    simp [update, hm, hs, runningStep, flyingStep, damagedStep]

theorem camera_advances_only_while_flying_witness :
    (update gFly false 0).1.cameraX = gFly.cameraX + 1 :=
  (camera_advances_only_while_flying gFly false 0 rfl).1 rfl

/-- C3 counterexample: a Playing tick in the Damaged sub-state (player
airborne) leaves `cameraX` unchanged, so the camera does not advance on
every airborne tick as claimed. -/
theorem camera_static_while_damaged :
    gDam.mode = Mode.game ∧ gDam.birdman.state = BirdmanState.damaged ∧
    (update gDam false 0).1.cameraX = gDam.cameraX ∧
    (update gDam false 0).1.cameraX ≠ gDam.cameraX + 1 := by
  decide

/-- C8: over one tick, `damagedCount` never decreases and changes only on
a Playing tick in the Flying sub-state; the only tick that resets it to 0
is the GameOver-plus-tap tick, which starts a new run via
`Game.initialize`. -/
theorem damagedCount_monotone (g : Game) (tap : Bool) (r : ℕ) :
    ((g.mode = Mode.gameOver ∧ tap = true) →
      (update g tap r).1.birdman.damagedCount = 0) ∧
    (¬(g.mode = Mode.gameOver ∧ tap = true) →
      g.birdman.damagedCount ≤ (update g tap r).1.birdman.damagedCount ∧
      ((update g tap r).1.birdman.damagedCount ≠ g.birdman.damagedCount →
        g.mode = Mode.game ∧ g.birdman.state = BirdmanState.flying)) := by
  cases hm : g.mode <;> cases tap <;> cases hs : g.birdman.state <;>
    simp [update, hm, hs, runningStep, flyingStep, damagedStep, initGame,
      initialBirdman] <;>
    split_ifs <;> omega

theorem damagedCount_monotone_witness :
    (update { gFly with mode := Mode.gameOver } true 0).1.birdman.damagedCount = 0 :=
  (damagedCount_monotone { gFly with mode := Mode.gameOver } true 0).1 ⟨rfl, rfl⟩

/-- C9: on a Playing/Flying tick the bird list is rebuilt by spawning (at
the pre-movement world X) and then moving/retiring; a bird is appended
exactly when the pre-movement X is a multiple of 200, it sits one screen
width ahead of the player, and for every value the PRNG may return its Y
lies in the 50 .. screenHeight - 50 band. -/
theorem bird_spawn_rule (g : Game) (tap : Bool) (r : ℕ)
    (hm : g.mode = Mode.game) (hs : g.birdman.state = BirdmanState.flying) :
    (update g tap r).1.birds =
      moveFilterBirds (spawnBirds g.birdman.x g.birds r) (g.cameraX + 1) ∧
    (g.birdman.x % 200 = 0 →
      spawnBirds g.birdman.x g.birds r =
        g.birds ++ [{ x := g.birdman.x + screenWidth,
                      y := 50 + (r : ℤ) % (screenHeight - 100) }]) ∧
    (g.birdman.x % 200 ≠ 0 → spawnBirds g.birdman.x g.birds r = g.birds) ∧
    50 ≤ 50 + (r : ℤ) % (screenHeight - 100) ∧
    50 + (r : ℤ) % (screenHeight - 100) ≤ screenHeight - 50 := by
  refine ⟨?_, ?_, ?_, ?_, ?_⟩
  · simp only [update, hm, hs]
    rfl
  · intro h
    simp [spawnBirds, h]
  · intro h
    simp [spawnBirds, h]
  · simp only [screenHeight]
    omega
  · simp only [screenHeight]
    omega

theorem bird_spawn_rule_witness :
    spawnBirds gFly.birdman.x gFly.birds 0 =
      gFly.birds ++ [{ x := gFly.birdman.x + screenWidth,
                       y := 50 + ((0 : ℕ) : ℤ) % (screenHeight - 100) }] :=
  (bird_spawn_rule gFly false 0 rfl rfl).2.1 (by decide)

theorem tdiv_neg_ofNat (b d : ℕ) :
    Int.tdiv (-(b : ℤ)) ((d : ℤ) + 1) = -((b / (d + 1) : ℕ) : ℤ) := by
  have h1 : ((d : ℤ) + 1) = ((d + 1 : ℕ) : ℤ) := by push_cast; ring
  rw [h1, Int.neg_tdiv, ← Int.ofNat_tdiv]

theorem flapAccel_eq_bandBase (x : ℤ) (n : ℕ) :
    flapAccel x (n : ℤ) = -((bandBase x / (n + 1) : ℕ) : ℤ) := by
  unfold flapAccel bandBase
  split_ifs
  · exact tdiv_neg_ofNat 20 n
  · exact tdiv_neg_ofNat 15 n
  · exact tdiv_neg_ofNat 10 n
  · exact tdiv_neg_ofNat 7 n
  · exact tdiv_neg_ofNat 5 n

theorem flapAccel_natAbs_antitone (x : ℤ) {n m : ℕ} (h : n ≤ m) :
    (flapAccel x (m : ℤ)).natAbs ≤ (flapAccel x (n : ℤ)).natAbs := by
  rw [flapAccel_eq_bandBase, flapAccel_eq_bandBase]
  simp only [Int.natAbs_neg, Int.natAbs_ofNat]
  exact Nat.div_le_div_left (Nat.succ_le_succ h) (Nat.succ_pos n)

/-- C2 (amended): on a Playing/Flying tap tick, the velocity gets the
impulse `flapAccel` — the band base (20/15/10/7/5 by world-X band) divided
by `damageCount + 1` with Go's truncating integer division — before
gravity; for a fixed position the impulse magnitude is non-increasing
(not strictly decreasing) in the number of prior damages. -/
theorem flap_impulse_scaling (g : Game) (r : ℕ) (n : ℕ)
    (hm : g.mode = Mode.game) (hs : g.birdman.state = BirdmanState.flying)
    (hdc : g.birdman.damagedCount = (n : ℤ)) :
    (update g true r).1.birdman.vy =
      applyGravity (g.birdman.vy + flapAccel g.birdman.x g.birdman.damagedCount) ∧
    flapAccel g.birdman.x g.birdman.damagedCount =
      -((bandBase g.birdman.x / (n + 1) : ℕ) : ℤ) ∧
    ∀ m : ℕ, n ≤ m →
      (flapAccel g.birdman.x (m : ℤ)).natAbs ≤
        (flapAccel g.birdman.x g.birdman.damagedCount).natAbs := by
  refine ⟨?_, ?_, ?_⟩
  · simp only [update, hm, hs]
    rfl
  · rw [hdc]
    exact flapAccel_eq_bandBase _ _
  · rw [hdc]
    exact fun m h => flapAccel_natAbs_antitone _ h

theorem flap_impulse_scaling_witness :
    (update gFly true 0).1.birdman.vy =
      applyGravity (gFly.birdman.vy + flapAccel gFly.birdman.x gFly.birdman.damagedCount) :=
  (flap_impulse_scaling gFly 0 0 rfl rfl rfl).1

/-- C2 counterexample: in the [0,1000) band the impulse for 6 prior
damages and for 7 prior damages are both -2 (20 divided by 7 and by 8
truncates to 2), so for a fixed band the impulse magnitude is not
strictly decreasing in the number of prior damages. -/
theorem flap_impulse_not_strictly_decreasing :
    flapAccel 500 6 = -2 ∧ flapAccel 500 7 = -2 ∧
    ¬((flapAccel 500 7).natAbs < (flapAccel 500 6).natAbs) := by
  decide

/-- C10: once `damageCount + 1` exceeds the band base, the truncating
division makes the impulse exactly 0: a tap while Flying leaves the
vertical velocity identical to a no-tap tick, yet the flap sound is still
requested. -/
theorem flap_zero_when_damage_exceeds_base (g : Game) (r : ℕ) (n : ℕ)
    (hm : g.mode = Mode.game) (hs : g.birdman.state = BirdmanState.flying)
    (hdc : g.birdman.damagedCount = (n : ℤ))
    (hbig : bandBase g.birdman.x < n + 1) :
    flapAccel g.birdman.x g.birdman.damagedCount = 0 ∧
    (update g true r).1.birdman.vy = (update g false r).1.birdman.vy ∧
    Effect.playSound SoundKind.flying ∈ (update g true r).2 := by
  have h0 : flapAccel g.birdman.x g.birdman.damagedCount = 0 := by
    rw [hdc, flapAccel_eq_bandBase, Nat.div_eq_of_lt hbig]
    simp
  refine ⟨h0, ?_, ?_⟩
  · simp only [update, hm, hs, flyingStep]
    simp [h0]
  · simp [update, hm, hs, flyingStep]

theorem flap_zero_when_damage_exceeds_base_witness :
    flapAccel gWeak.birdman.x gWeak.birdman.damagedCount = 0 :=
  (flap_zero_when_damage_exceeds_base gWeak 0 20 rfl rfl rfl (by decide)).1

theorem spawnBirds_y_le {birds : List Bird} (h : ∀ b ∈ birds, 50 ≤ b.y)
    (x : ℤ) (r : ℕ) : ∀ b ∈ spawnBirds x birds r, 50 ≤ b.y := by
  intro b hb
  unfold spawnBirds at hb
  split at hb
  · rcases List.mem_append.mp hb with h1 | h1
    · exact h b h1
    · rcases List.mem_singleton.mp h1 with rfl
      simp only [screenHeight]
      omega
  · exact h b hb

theorem moveFilterBirds_y_le {birds : List Bird} (h : ∀ b ∈ birds, 50 ≤ b.y)
    (cx : ℤ) : ∀ b ∈ moveFilterBirds birds cx, 50 ≤ b.y := by
  intro b hb
  unfold moveFilterBirds at hb
  have hb1 := List.mem_of_mem_filter hb
  rcases List.mem_map.mp hb1 with ⟨a, ha, rfl⟩
  exact h a ha

/-- Spawn invariant: every tick of `Game.Update` keeps all live birds' Y
at or above 50 (the spawner only ever produces Y in 50 .. 429, and no
branch changes a bird's Y). -/
theorem birds_y_invariant_update (g : Game) (tap : Bool) (r : ℕ)
    (h : ∀ b ∈ g.birds, 50 ≤ b.y) :
    ∀ b ∈ (update g tap r).1.birds, 50 ≤ b.y := by
  cases hm : g.mode
  case title =>
    cases tap <;> (simp [update, hm]; exact h)
  case gameOver =>
    cases tap
    · simp only [update, hm]
      exact h
    · simp [update, hm, initGame]
  case game =>
    cases hs : g.birdman.state
    case running =>
      simp only [update, hm, hs, runningStep]
      exact h
    case flying =>
      simp only [update, hm, hs, flyingStep]
      exact moveFilterBirds_y_le (spawnBirds_y_le h _ _) _
    case damaged =>
      simp only [update, hm, hs, damagedStep]
      intro b hb
      rcases List.mem_map.mp hb with ⟨a, ha, rfl⟩
      exact h a ha

/-- Spawn invariant holds from the start of a run. -/
theorem birds_y_invariant_initGame (g : Game) :
    ∀ b ∈ (initGame g).1.birds, 50 ≤ b.y := by
  simp [initGame]

theorem collides_eq_false_of_ceiling {x y : ℤ} {b : Bird}
    (hy : y < 0) (hb : 50 ≤ b.y) : collides x y b = false := by
  unfold collides
  simp only [decide_eq_false_iff_not, not_lt, birdmanAndBirdCollisionRadius]
  nlinarith [sq_nonneg (x - b.x), sq_nonneg (y - b.y + 51)]

/-- C1: on a Playing/Flying tick at most one damage event is applied:
`damagedCount` grows by at most 1, and when the ceiling violation
(post-move Y < 0) fires, `damagedCount` grows by exactly that one — the
collision scan, evaluated after the ceiling check, cannot add a second
damage event in the same tick, because every live bird's Y is at least 50
(the spawn invariant `birds_y_invariant_update`) while the player is
above the top edge. -/
theorem damage_at_most_one_per_tick (g : Game) (tap : Bool) (r : ℕ)
    (hm : g.mode = Mode.game) (hs : g.birdman.state = BirdmanState.flying)
    (hb : ∀ b ∈ g.birds, 50 ≤ b.y) :
    (update g tap r).1.birdman.damagedCount ≤ g.birdman.damagedCount + 1 ∧
    ((update g tap r).1.birdman.y < 0 →
      (update g tap r).1.birdman.damagedCount = g.birdman.damagedCount + 1) := by
  simp only [update, hm, hs, flyingStep]
  set y1 := g.birdman.y +
    applyGravity (g.birdman.vy +
      if tap = true then flapAccel g.birdman.x g.birdman.damagedCount else 0) with hy1
  set birds2 := moveFilterBirds (spawnBirds g.birdman.x g.birds r) (g.cameraX + 1)
    with hbirds2
  by_cases hceil : y1 < 0
  · have hall : birds2.any (collides (g.birdman.x + 1) y1) = false := by
      rw [List.any_eq_false]
      intro b hbm
      have hby : 50 ≤ b.y := by
        rw [hbirds2] at hbm
        exact moveFilterBirds_y_le (spawnBirds_y_le hb _ _) _ b hbm
      simp [collides_eq_false_of_ceiling hceil hby]
    simp [hceil, hall]
  · simp only [if_neg hceil]
    constructor
    · split_ifs <;> omega
    · intro hcontra
      exact absurd hcontra hceil

theorem damage_at_most_one_per_tick_witness :
    (update gFly false 0).1.birdman.damagedCount ≤ gFly.birdman.damagedCount + 1 :=
  (damage_at_most_one_per_tick gFly false 0 rfl rfl (by decide)).1

/-- C4 (amended): on a Playing/Flying tick every bird's X decreases by 1
and every bird whose trailing edge has fully passed the camera's leading
edge (`x + birdWidth ≤ cameraX`) is removed in that same tick, the
surviving birds keeping their relative order; on a Playing/Damaged tick
the birds advance but none is removed (the Damaged branch has no
retirement filter). -/
theorem birds_move_and_retire (g : Game) (tap : Bool) (r : ℕ)
    (hm : g.mode = Mode.game) :
    (g.birdman.state = BirdmanState.flying →
      (update g tap r).1.birds =
        moveFilterBirds (spawnBirds g.birdman.x g.birds r) (g.cameraX + 1) ∧
      (∀ b ∈ (update g tap r).1.birds, b.x + birdWidth > (update g tap r).1.cameraX) ∧
      (update g tap r).1.birds.Sublist
        ((spawnBirds g.birdman.x g.birds r).map fun b => { b with x := b.x - 1 })) ∧
    (g.birdman.state = BirdmanState.damaged →
      (update g tap r).1.birds = g.birds.map fun b => { b with x := b.x - 1 }) := by
  constructor
  · intro hs
    refine ⟨?_, ?_, ?_⟩
    · simp only [update, hm, hs]
      rfl
    · simp only [update, hm, hs, flyingStep]
      intro b hb
      unfold moveFilterBirds at hb
      have hp := List.of_mem_filter hb
      simpa using hp
    · simp only [update, hm, hs, flyingStep, moveFilterBirds]
      exact List.filter_sublist _
  · intro hs
    simp only [update, hm, hs, damagedStep]

theorem birds_move_and_retire_witness :
    (update gFly false 0).1.birds =
      moveFilterBirds (spawnBirds gFly.birdman.x gFly.birds 0) (gFly.cameraX + 1) :=
  ((birds_move_and_retire gFly false 0 rfl).1 rfl).1

/-- C4 counterexample: on this Playing tick the obstacle advances (the
Damaged branch still decrements bird X) and its trailing edge had already
fully passed the camera's leading edge before the tick, yet after the
tick it is still in the collection — the Damaged branch never removes
birds, so removal is not guaranteed by the next tick after the condition
holds. -/
theorem stale_bird_survives_damaged_tick :
    gDamStale.mode = Mode.game ∧
    gDamStale.birdman.state = BirdmanState.damaged ∧
    (∀ b ∈ gDamStale.birds, b.x + birdWidth ≤ gDamStale.cameraX) ∧
    (update gDamStale false 0).1.birds = [{ x := -301, y := 100 }] := by
  decide

/-- C7: on a Playing tick in the Flying or Damaged sub-state in which the
post-integration Y (which is the tick's final Y) exceeds `screenHeight`,
the mode transitions to GameOver, a `game_over` telemetry event carrying
the final world X and damage count is emitted, and the game-over sound is
requested exactly once. -/
theorem floor_violation_game_over (g : Game) (tap : Bool) (r : ℕ)
    (hm : g.mode = Mode.game)
    (hs : g.birdman.state = BirdmanState.flying ∨
      g.birdman.state = BirdmanState.damaged)
    (hy : (update g tap r).1.birdman.y > screenHeight) :
    (update g tap r).1.mode = Mode.gameOver ∧
    Effect.logGameOver (update g tap r).1.birdman.x
        (update g tap r).1.birdman.damagedCount ∈ (update g tap r).2 ∧
    (update g tap r).2.count (Effect.playSound SoundKind.gameOver) = 1 := by
  rcases hs with hs | hs
  · simp only [update, hm, hs, flyingStep] at hy ⊢
    simp only [hy, if_true]
    refine ⟨trivial, ?_, ?_⟩
    · simp
    · cases tap <;> split_ifs <;>
        simp [List.count_append, List.count_cons, List.count_nil]
  · simp only [update, hm, hs, damagedStep] at hy ⊢
    simp only [hy, if_true]
    refine ⟨trivial, ?_, ?_⟩
    · simp
    · simp [List.count_cons, List.count_nil]

theorem floor_violation_game_over_witness :
    (update gFall false 0).1.mode = Mode.gameOver :=
  (floor_violation_game_over gFall false 0 rfl (Or.inr rfl) (by decide)).1

/-- One Damaged tick, fully characterized (any tap / PRNG input: the
Damaged branch reads neither). -/
theorem damaged_tick_eq (g : Game) (tap : Bool) (r : ℕ)
    (hm : g.mode = Mode.game) (hs : g.birdman.state = BirdmanState.damaged) :
    (update g tap r).1 =
      { g with
          mode := if g.birdman.y + 1 > screenHeight then Mode.gameOver else Mode.game
          birds := g.birds.map fun b => { b with x := b.x - 1 }
          birdman := { g.birdman with
            state := if (g.birdman.damagedTicks + 1) % maxTPS = 0 then BirdmanState.flying
                     else BirdmanState.damaged
            y := g.birdman.y + 1
            vy := 0
            damagedTicks := if (g.birdman.damagedTicks + 1) % maxTPS = 0 then 0
                            else g.birdman.damagedTicks + 1 } } := by
  simp only [update, hm, hs, damagedStep]

/-- Trajectory of a Damaged phase entered with `damagedTicks = 0`, while
the floor is not reached: after `k ≤ 59` ticks the sub-state is still
Damaged with `damagedTicks = k` and `y` increased by `k`. -/
theorem damaged_phase_aux (taps : ℕ → Bool) (rs : ℕ → ℕ) (g : Game)
    (hm : g.mode = Mode.game) (hs : g.birdman.state = BirdmanState.damaged)
    (hdt : g.birdman.damagedTicks = 0) (hy : g.birdman.y + 60 ≤ screenHeight) :
    ∀ k : ℕ, k ≤ 59 →
      (updateSeq taps rs k g).mode = Mode.game ∧
      (updateSeq taps rs k g).birdman.state = BirdmanState.damaged ∧
      (updateSeq taps rs k g).birdman.damagedTicks = (k : ℤ) ∧
      (updateSeq taps rs k g).birdman.y = g.birdman.y + (k : ℤ) ∧
      (1 ≤ k → (updateSeq taps rs k g).birdman.vy = 0) := by
  intro k
  induction k with
  | zero =>
    intro _
    refine ⟨hm, hs, ?_, ?_, by omega⟩
    · simpa [updateSeq] using hdt
    · simp [updateSeq]
  | succ n ih =>
    intro hn
    obtain ⟨ihm, ihs, ihdt, ihy, _⟩ := ih (by omega)
    have hstep := damaged_tick_eq (updateSeq taps rs n g) (taps n) (rs n) ihm ihs
    have hmod : ((updateSeq taps rs n g).birdman.damagedTicks + 1) % maxTPS ≠ 0 := by
      rw [ihdt]
      simp only [maxTPS]
      omega
    have hfloor : ¬((updateSeq taps rs n g).birdman.y + 1 > screenHeight) := by
      rw [ihy]
      simp only [screenHeight] at hy ⊢
      omega
    have hrw : updateSeq taps rs (n + 1) g =
        (update (updateSeq taps rs n g) (taps n) (rs n)).1 := rfl
    rw [hrw, hstep]
    simp only [if_neg hmod, if_neg hfloor]
    refine ⟨trivial, trivial, ?_, ?_, fun _ => trivial⟩
    · rw [ihdt]
      push_cast
      ring
    · rw [ihy]
      push_cast
      ring

/-- C6: entering the Damaged sub-state with `damagedTicks = 0` (as every
entry in the source does), and assuming the floor is not reached during
the phase, the sub-state persists for exactly 60 ticks (one second at the
fixed 60-ticks-per-second rate): on each of those ticks the velocity is
forced to 0 and Y grows by exactly 1, ticks 1..59 are still Damaged, and
after the 60th tick the player is back to Flying with `damagedTicks`
reset to 0 and velocity 0. -/
theorem damaged_lasts_one_second (taps : ℕ → Bool) (rs : ℕ → ℕ) (g : Game)
    (hm : g.mode = Mode.game) (hs : g.birdman.state = BirdmanState.damaged)
    (hdt : g.birdman.damagedTicks = 0) (hy : g.birdman.y + 60 ≤ screenHeight) :
    (∀ k : ℕ, 1 ≤ k → k ≤ 59 →
      (updateSeq taps rs k g).birdman.state = BirdmanState.damaged ∧
      (updateSeq taps rs k g).birdman.vy = 0 ∧
      (updateSeq taps rs k g).birdman.y = g.birdman.y + (k : ℤ)) ∧
    (updateSeq taps rs 60 g).birdman.state = BirdmanState.flying ∧
    (updateSeq taps rs 60 g).birdman.damagedTicks = 0 ∧
    (updateSeq taps rs 60 g).birdman.vy = 0 ∧
    (updateSeq taps rs 60 g).birdman.y = g.birdman.y + 60 := by
  have aux := damaged_phase_aux taps rs g hm hs hdt hy
  constructor
  · intro k h1 h59
    obtain ⟨_, hstate, _, hyk, hvy⟩ := aux k h59
    exact ⟨hstate, hvy h1, hyk⟩
  · obtain ⟨ihm, ihs, ihdt, ihy, _⟩ := aux 59 (by omega)
    have hstep := damaged_tick_eq (updateSeq taps rs 59 g) (taps 59) (rs 59) ihm ihs
    have hmod : ((updateSeq taps rs 59 g).birdman.damagedTicks + 1) % maxTPS = 0 := by
      rw [ihdt]
      decide
    have hfloor : ¬((updateSeq taps rs 59 g).birdman.y + 1 > screenHeight) := by
      rw [ihy]
      simp only [screenHeight] at hy ⊢
      omega
    have hrw : updateSeq taps rs 60 g =
        (update (updateSeq taps rs 59 g) (taps 59) (rs 59)).1 := rfl
    rw [hrw, hstep]
    simp only [if_pos hmod, if_neg hfloor]
    refine ⟨trivial, trivial, trivial, ?_⟩
    rw [ihy]
    push_cast
    ring

theorem damaged_lasts_one_second_witness :
    (updateSeq (fun _ => false) (fun _ => 0) 60 gDam).birdman.state =
      BirdmanState.flying :=
  (damaged_lasts_one_second (fun _ => false) (fun _ => 0) gDam rfl rfl rfl
    (by decide)).2.1

end BirdmanGame
